import Mathlib

/-!
Verification of `gtk/gtkpopovermenu.c` (GtkPopoverMenu, the SubmenuContainer
of the specification).

The popover menu itself is embedded directly from the C source.  Its two
collaborators, the generic widget type (`GtkWidget`) and the named-page stack
(`GtkStack`), are not part of this repository's sources; they are modelled
from the specification's description of the page container: an ordered mapping
from unique page names to child widgets, at most one of which is visible at a
time, with a change notification fired whenever the visible name actually
changes.  The specification leaves the behaviour of selecting a nonexistent
page name open ("no-op or becomes blank"); the model resolves it as a no-op
(the request is recorded but the visible page is unchanged), and every
theorem that depends on this choice is robust to the alternative.
-/

/-- Modelled from the spec: a child widget, carrying an identity and an
optional caller-supplied name attribute ("a child widget's own name
attribute, when present, becomes its page name"). -/
structure Widget where
  id : Nat
  name : Option String
deriving DecidableEq, Repr

/-- Modelled from the spec: `gtk_widget_get_name` returns the widget's own
name attribute when present. -/
def gtk_widget_get_name (w : Widget) : Option String :=
  w.name

/-- Transition animation styles of the page container; the source only uses
the horizontal slide (`GTK_STACK_TRANSITION_TYPE_SLIDE_LEFT_RIGHT`). -/
inductive StackTransitionType where
  | noTransition
  | slideLeftRight
deriving DecidableEq, Repr

/-- Modelled from the spec: the page container ("the stack").  It holds an
ordered mapping from page names to child widgets, the currently visible page
name (or none), a count of emitted visible-page-changed notifications, a log
of every visible-page request it has received, and the configuration set at
construction. -/
structure Stack where
  id : Nat
  vhomogeneous : Bool
  transitionType : StackTransitionType
  interpolateSize : Bool
  pages : List (String × Widget)
  visible : Option String
  notifications : Nat
  requests : List String
deriving DecidableEq, Repr

/-- First widget bound to a given page name, if any. -/
def lookupPage : List (String × Widget) → String → Option Widget
  | [], _ => none
  | q :: rest, n => if q.1 = n then some q.2 else lookupPage rest n

/-- Drop every page bound to a given widget. -/
def removePages : List (String × Widget) → Widget → List (String × Widget)
  | [], _ => []
  | q :: rest, w => if q.2 = w then removePages rest w else q :: removePages rest w

/-- Number of pages carrying a given name. -/
def countName (n : String) : List (String × Widget) → Nat
  | [] => 0
  | q :: rest => (if q.1 = n then 1 else 0) + countName n rest

/-- Modelled from the spec: a freshly created page container is empty, shows
no page, and has emitted no notification. -/
def gtk_stack_new : Stack :=
  { id := 0
    vhomogeneous := true
    transitionType := StackTransitionType.noTransition
    interpolateSize := false
    pages := []
    visible := none
    notifications := 0
    requests := [] }

/-- Modelled from the spec: vertical-homogeneity configuration setter. -/
def gtk_stack_set_vhomogeneous (s : Stack) (b : Bool) : Stack :=
  { s with vhomogeneous := b }

/-- Modelled from the spec: transition-type configuration setter. -/
def gtk_stack_set_transition_type (s : Stack) (t : StackTransitionType) : Stack :=
  { s with transitionType := t }

/-- Modelled from the spec: size-interpolation configuration setter. -/
def gtk_stack_set_interpolate_size (s : Stack) (b : Bool) : Stack :=
  { s with interpolateSize := b }

/-- Modelled from the spec: look a page up by name. -/
def gtk_stack_get_child_by_name (s : Stack) (n : String) : Option Widget :=
  lookupPage s.pages n

/-- Modelled from the spec: insert a widget into the page container under a
name (appended, preserving all existing pages). -/
def gtk_stack_add_named (s : Stack) (child : Widget) (n : String) : Stack :=
  { s with pages := s.pages ++ [(n, child)] }

/-- Modelled from the spec: the visible-name getter of the page container. -/
def gtk_stack_get_visible_child_name (s : Stack) : Option String :=
  s.visible

/-- Modelled from the spec: the visible-name setter of the page container.
Every request is logged.  When the requested page exists and differs from the
current one, the visible name changes and exactly one change notification is
emitted; a request for the already-visible page emits none; a request for a
nonexistent page is ignored (the open question of the spec, resolved here as
a no-op). -/
def gtk_stack_set_visible_child_name (s : Stack) (n : String) : Stack :=
  match gtk_stack_get_child_by_name s n with
  | some _ =>
      if s.visible = some n then
        { s with requests := s.requests ++ [n] }
      else
        { s with
            requests := s.requests ++ [n]
            visible := some n
            notifications := s.notifications + 1 }
  | none => { s with requests := s.requests ++ [n] }

/-- Modelled from the spec: removing a widget from the page container removes
exactly the pages bound to that widget. -/
def gtk_container_remove (s : Stack) (child : Widget) : Stack :=
  { s with pages := removePages s.pages child }

/-- The popover menu (SubmenuContainer): a bin whose single structural child
is the page container created at construction.  `fallbackChild` records a
widget installed by the parent class when no stack is present (the
`stack == NULL` branch of `gtk_popover_menu_add`); `handlerConnected` records
the `notify::visible-child-name` signal connection made at construction;
`mapped` is the widget's mapped state; `menuStyle` records the "menu" style
class applied to the contents node. -/
structure PopoverMenu where
  binChild : Option Stack
  fallbackChild : Option Widget
  handlerConnected : Bool
  mapped : Bool
  menuStyle : Bool
deriving DecidableEq, Repr

/-- Embeds `gtk_popover_menu_init`: create a stack, disable vertical
homogeneity, select the horizontal slide transition, enable size
interpolation, install the stack as the single child, connect the
visible-child-name listener, and apply the menu style class. -/
def gtk_popover_menu_init : PopoverMenu :=
  let stack := gtk_stack_new
  let stack := gtk_stack_set_vhomogeneous stack false
  let stack := gtk_stack_set_transition_type stack StackTransitionType.slideLeftRight
  let stack := gtk_stack_set_interpolate_size stack true
  { binChild := some stack
    fallbackChild := none
    handlerConnected := true
    mapped := false
    menuStyle := true }

/-- Embeds `gtk_popover_menu_new`: a freshly constructed popover menu. -/
def gtk_popover_menu_new : PopoverMenu :=
  gtk_popover_menu_init

/-- Embeds `gtk_popover_menu_add_submenu`: insert the widget into the page
container under the given name. -/
def gtk_popover_menu_add_submenu (p : PopoverMenu) (submenu : Widget) (n : String) :
    PopoverMenu :=
  match p.binChild with
  | some s => { p with binChild := some (gtk_stack_add_named s submenu n) }
  | none => p

/-- Embeds `gtk_popover_menu_add`: when no stack is present the parent class
installs the child directly; otherwise the effective page name is the child's
own name if it has one, else "submenu" when a page named "main" already
exists, else "main", and the child is added as a submenu under that name. -/
def gtk_popover_menu_add (p : PopoverMenu) (child : Widget) : PopoverMenu :=
  match p.binChild with
  | none => { p with fallbackChild := some child }
  | some s =>
      let name :=
        match gtk_widget_get_name child with
        | some n => n
        | none =>
            if (gtk_stack_get_child_by_name s "main").isSome then "submenu"
            else "main"
      gtk_popover_menu_add_submenu p child name

/-- Argument of the container remove operation: in the C source the child
pointer is compared against the stack pointer, so the argument is either the
page container itself or an ordinary widget. -/
inductive PopChild where
  | theStack
  | pageChild (w : Widget)
deriving DecidableEq, Repr

/-- Embeds `gtk_popover_menu_remove`: removing the stack itself is forwarded
to the base widget (removing all content); removing any other widget is
forwarded into the page container. -/
def gtk_popover_menu_remove (p : PopoverMenu) (c : PopChild) : PopoverMenu :=
  match c with
  | PopChild.theStack => { p with binChild := none }
  | PopChild.pageChild w =>
      match p.binChild with
      | some s => { p with binChild := some (gtk_container_remove s w) }
      | none => p

/-- Embeds `gtk_popover_menu_open_submenu`: set the page container's visible
page to the given name. -/
def gtk_popover_menu_open_submenu (p : PopoverMenu) (n : String) : PopoverMenu :=
  match p.binChild with
  | some s => { p with binChild := some (gtk_stack_set_visible_child_name s n) }
  | none => p

/-- Embeds the `PROP_VISIBLE_SUBMENU` branch of
`gtk_popover_menu_get_property`: delegate to the stack's visible-name
getter. -/
def gtk_popover_menu_get_visible_submenu (p : PopoverMenu) : Option String :=
  match p.binChild with
  | some s => gtk_stack_get_visible_child_name s
  | none => none

/-- Embeds the `PROP_VISIBLE_SUBMENU` branch of
`gtk_popover_menu_set_property`: delegate to the stack's visible-name
setter. -/
def gtk_popover_menu_set_visible_submenu (p : PopoverMenu) (n : String) : PopoverMenu :=
  match p.binChild with
  | some s => { p with binChild := some (gtk_stack_set_visible_child_name s n) }
  | none => p

/-- Embeds `gtk_popover_menu_map`: chain to the parent map (the widget
becomes mapped), then open the "main" submenu. -/
def gtk_popover_menu_map (p : PopoverMenu) : PopoverMenu :=
  gtk_popover_menu_open_submenu { p with mapped := true } "main"

/-- Embeds `gtk_popover_menu_unmap`: open the "main" submenu, then chain to
the parent unmap (the widget becomes unmapped). -/
def gtk_popover_menu_unmap (p : PopoverMenu) : PopoverMenu :=
  { gtk_popover_menu_open_submenu p "main" with mapped := false }

/-- Count of visible-page-changed notifications re-emitted by the popover
menu: the listener connected at construction forwards each stack
notification one-to-one as a "visible-submenu" notification. -/
def PopoverMenu.notifyCount (p : PopoverMenu) : Nat :=
  match p.binChild with
  | some s => s.notifications
  | none => 0

/-- Log of visible-page requests received by the page container. -/
def PopoverMenu.stackRequests (p : PopoverMenu) : List String :=
  match p.binChild with
  | some s => s.requests
  | none => []

/-- The public operations of the popover menu, for quantifying over
operation sequences. -/
inductive Op where
  | addChild (w : Widget)
  | addSubmenu (w : Widget) (n : String)
  | removeChild (w : Widget)
  | openSubmenu (n : String)
  | setVisibleSubmenu (n : String)
  | getVisibleSubmenu
  | mapOp
  | unmapOp
deriving DecidableEq, Repr

/-- One public operation applied to the popover menu. -/
def stepOp (p : PopoverMenu) : Op → PopoverMenu
  | Op.addChild w => gtk_popover_menu_add p w
  | Op.addSubmenu w n => gtk_popover_menu_add_submenu p w n
  | Op.removeChild w => gtk_popover_menu_remove p (PopChild.pageChild w)
  | Op.openSubmenu n => gtk_popover_menu_open_submenu p n
  | Op.setVisibleSubmenu n => gtk_popover_menu_set_visible_submenu p n
  | Op.getVisibleSubmenu => p
  | Op.mapOp => gtk_popover_menu_map p
  | Op.unmapOp => gtk_popover_menu_unmap p

/-- A sequence of public operations applied in order. -/
def runOps (p : PopoverMenu) : List Op → PopoverMenu
  | [] => p
  | op :: ops => runOps (stepOp p op) ops

/-- Number of steps of a sequence at which the visible page name actually
changes. -/
def changeCount (p : PopoverMenu) : List Op → Nat
  | [] => 0
  | op :: ops =>
      (if gtk_popover_menu_get_visible_submenu (stepOp p op) =
          gtk_popover_menu_get_visible_submenu p then 0 else 1) +
        changeCount (stepOp p op) ops

/-- The concrete stack held by a freshly constructed popover menu. -/
def initStack : Stack :=
  { id := 0
    vhomogeneous := false
    transitionType := StackTransitionType.slideLeftRight
    interpolateSize := true
    pages := []
    visible := none
    notifications := 0
    requests := [] }

/- Helper lemmas about the page list operations. -/

theorem countName_append (n : String) (l1 l2 : List (String × Widget)) :
    countName n (l1 ++ l2) = countName n l1 + countName n l2 := by
  induction l1 with
  | nil => simp [countName]
  | cons q rest ih => simp [countName, ih]; omega

theorem lookupPage_isSome_countName (l : List (String × Widget)) (n : String)
    (h : (lookupPage l n).isSome) : 1 ≤ countName n l := by
  induction l with
  | nil => simp [lookupPage] at h
  | cons q rest ih =>
      by_cases hq : q.1 = n
      · simp [countName, hq]
      · simp [lookupPage, hq] at h
        simp [countName, hq]
        exact ih h

theorem lookupPage_removePages_ne (l : List (String × Widget)) (w w2 : Widget)
    (n : String) (hne : w2 ≠ w) (h : lookupPage l n = some w2) :
    lookupPage (removePages l w) n = some w2 := by
  induction l with
  | nil => simp [lookupPage] at h
  | cons q rest ih =>
      by_cases hq : q.1 = n
      · simp [lookupPage, hq] at h
        have hqw : q.2 ≠ w := by rw [h]; exact hne
        simp [removePages, hqw, hne, lookupPage, hq, h]
      · simp [lookupPage, hq] at h
        by_cases hw : q.2 = w
        · simpa [removePages, hw] using ih h
        · simpa [removePages, hw, lookupPage, hq] using ih h

theorem lookupPage_removePages_self (l : List (String × Widget)) (w : Widget)
    (n : String) : lookupPage (removePages l w) n ≠ some w := by
  induction l with
  | nil => simp [removePages, lookupPage]
  | cons q rest ih =>
      by_cases hw : q.2 = w
      · simpa [removePages, hw] using ih
      · by_cases hq : q.1 = n
        · simp [removePages, hw, lookupPage, hq]
        · simpa [removePages, hw, lookupPage, hq] using ih

/- Helper lemmas about the visible-name setter of the page container. -/

theorem stack_set_visible_exists (s : Stack) (n : String)
    (hex : (gtk_stack_get_child_by_name s n).isSome) :
    (gtk_stack_set_visible_child_name s n).visible = some n := by
  rcases h : gtk_stack_get_child_by_name s n with _ | w
  · rw [h] at hex; simp at hex
  · by_cases hv : s.visible = some n
    · simp [gtk_stack_set_visible_child_name, h, hv]
    · simp [gtk_stack_set_visible_child_name, h, hv]

theorem stack_set_visible_absent (s : Stack) (n : String)
    (h : gtk_stack_get_child_by_name s n = none) :
    (gtk_stack_set_visible_child_name s n).visible = s.visible := by
  simp [gtk_stack_set_visible_child_name, h]

theorem stack_set_visible_notifications (s : Stack) (n : String) :
    (gtk_stack_set_visible_child_name s n).notifications =
      s.notifications +
        (if (gtk_stack_set_visible_child_name s n).visible = s.visible then 0 else 1) := by
  rcases h : gtk_stack_get_child_by_name s n with _ | w
  · simp [gtk_stack_set_visible_child_name, h]
  · by_cases hv : s.visible = some n
    · simp [gtk_stack_set_visible_child_name, h, hv]
    · have hv2 : ¬ (some n = s.visible) := fun hh => hv hh.symm
      simp [gtk_stack_set_visible_child_name, h, hv, hv2]

theorem stack_set_visible_id (s : Stack) (n : String) :
    (gtk_stack_set_visible_child_name s n).id = s.id := by
  rcases h : gtk_stack_get_child_by_name s n with _ | w
  · simp [gtk_stack_set_visible_child_name, h]
  · by_cases hv : s.visible = some n
    · simp [gtk_stack_set_visible_child_name, h, hv]
    · simp [gtk_stack_set_visible_child_name, h, hv]

/-- C1: for every child added via addChild to a constructed instance, the
child's own name, when present, is used as its page name; an unnamed child is
inserted under "main" when no page of that name exists, and under "submenu"
when a page named "main" already exists; in each case the child is appended
to the page container under that effective name. -/
theorem addChild_effective_name (p : PopoverMenu) (s : Stack) (child : Widget)
    (hp : p.binChild = some s) :
    (∀ n, child.name = some n →
      ∃ s2, (gtk_popover_menu_add p child).binChild = some s2 ∧
        s2.pages = s.pages ++ [(n, child)]) ∧
    (child.name = none → gtk_stack_get_child_by_name s "main" = none →
      ∃ s2, (gtk_popover_menu_add p child).binChild = some s2 ∧
        s2.pages = s.pages ++ [("main", child)]) ∧
    (child.name = none → (gtk_stack_get_child_by_name s "main").isSome →
      ∃ s2, (gtk_popover_menu_add p child).binChild = some s2 ∧
        s2.pages = s.pages ++ [("submenu", child)]) := by
  refine ⟨?_, ?_, ?_⟩
  · intro n hn
    refine ⟨gtk_stack_add_named s child n, ?_, ?_⟩
    · simp [gtk_popover_menu_add, hp, gtk_widget_get_name, hn,
        gtk_popover_menu_add_submenu]
    · simp [gtk_stack_add_named]
  · intro hn hmain
    refine ⟨gtk_stack_add_named s child "main", ?_, ?_⟩
    · simp [gtk_popover_menu_add, hp, gtk_widget_get_name, hn, hmain,
        gtk_popover_menu_add_submenu]
    · simp [gtk_stack_add_named]
  · intro hn hmain
    refine ⟨gtk_stack_add_named s child "submenu", ?_, ?_⟩
    · simp [gtk_popover_menu_add, hp, gtk_widget_get_name, hn, hmain,
        gtk_popover_menu_add_submenu]
    · simp [gtk_stack_add_named]

/-- Witness for C1 at a concrete input: a named child of a fresh instance
lands under its own name. -/
theorem addChild_effective_name_witness :
    gtk_popover_menu_new.binChild = some initStack ∧
    Widget.name ⟨5, some "x"⟩ = some "x" ∧
    ∃ s2, (gtk_popover_menu_add gtk_popover_menu_new ⟨5, some "x"⟩).binChild = some s2 ∧
      s2.pages = initStack.pages ++ [("x", ⟨5, some "x"⟩)] :=
  ⟨rfl, rfl,
    (addChild_effective_name gtk_popover_menu_new initStack ⟨5, some "x"⟩ rfl).1 "x" rfl⟩

/-- C7: on a constructed instance, addSubmenu(w, n) coincides with addChild
of a widget carrying the explicit name n: the resulting states are equal,
with w appended to the page container under n. -/
theorem add_submenu_equiv_named_add (p : PopoverMenu) (s : Stack) (w : Widget)
    (n : String) (hp : p.binChild = some s) (hn : w.name = some n) :
    gtk_popover_menu_add p w = gtk_popover_menu_add_submenu p w n ∧
    ∃ s2, (gtk_popover_menu_add_submenu p w n).binChild = some s2 ∧
      s2.pages = s.pages ++ [(n, w)] := by
  constructor
  · simp [gtk_popover_menu_add, hp, gtk_widget_get_name, hn]
  · refine ⟨gtk_stack_add_named s w n, ?_, ?_⟩
    · simp [gtk_popover_menu_add_submenu, hp]
    · simp [gtk_stack_add_named]

/-- Witness for C7 at a concrete input. -/
theorem add_submenu_equiv_named_add_witness :
    gtk_popover_menu_new.binChild = some initStack ∧
    Widget.name ⟨7, some "extra"⟩ = some "extra" ∧
    (gtk_popover_menu_add gtk_popover_menu_new ⟨7, some "extra"⟩ =
      gtk_popover_menu_add_submenu gtk_popover_menu_new ⟨7, some "extra"⟩ "extra" ∧
    ∃ s2,
      (gtk_popover_menu_add_submenu gtk_popover_menu_new ⟨7, some "extra"⟩ "extra").binChild =
        some s2 ∧
      s2.pages = initStack.pages ++ [("extra", ⟨7, some "extra"⟩)]) :=
  ⟨rfl, rfl,
    add_submenu_equiv_named_add gtk_popover_menu_new initStack ⟨7, some "extra"⟩ "extra"
      rfl rfl⟩

/-- C9: an unnamed child added while a page named "main" exists is given the
page name "submenu" regardless of which other pages exist; hence whenever a
page named "submenu" already exists as well (as after two unnamed adds),
adding a further unnamed child produces a second page named "submenu" — a
name collision. -/
theorem unnamed_after_main_collides (p : PopoverMenu) (s : Stack) (child : Widget)
    (hp : p.binChild = some s) (hn : child.name = none)
    (hmain : (gtk_stack_get_child_by_name s "main").isSome) :
    ∃ s2, (gtk_popover_menu_add p child).binChild = some s2 ∧
      s2.pages = s.pages ++ [("submenu", child)] ∧
      countName "submenu" s2.pages = countName "submenu" s.pages + 1 ∧
      ((gtk_stack_get_child_by_name s "submenu").isSome →
        2 ≤ countName "submenu" s2.pages) := by
  refine ⟨gtk_stack_add_named s child "submenu", ?_, ?_, ?_, ?_⟩
  · simp [gtk_popover_menu_add, hp, gtk_widget_get_name, hn, hmain,
      gtk_popover_menu_add_submenu]
  · simp [gtk_stack_add_named]
  · simp [gtk_stack_add_named, countName_append, countName]
  · intro hsub
    have h1 : 1 ≤ countName "submenu" s.pages :=
      lookupPage_isSome_countName s.pages "submenu" hsub
    simp [gtk_stack_add_named, countName_append, countName]
    omega

/-- The state after adding two unnamed children to a fresh instance: the
first landed under "main", the second under "submenu". -/
def twoUnnamed : PopoverMenu :=
  gtk_popover_menu_add (gtk_popover_menu_add gtk_popover_menu_new ⟨1, none⟩) ⟨2, none⟩

/-- The stack held by `twoUnnamed`. -/
def twoUnnamedStack : Stack :=
  { initStack with pages := [("main", ⟨1, none⟩), ("submenu", ⟨2, none⟩)] }

/-- Witness for C9 at a concrete input: the third unnamed child collides
with the existing "submenu" page. -/
theorem unnamed_after_main_collides_witness :
    twoUnnamed.binChild = some twoUnnamedStack ∧
    Widget.name ⟨3, none⟩ = none ∧
    (gtk_stack_get_child_by_name twoUnnamedStack "main").isSome ∧
    (gtk_stack_get_child_by_name twoUnnamedStack "submenu").isSome ∧
    ∃ s2, (gtk_popover_menu_add twoUnnamed ⟨3, none⟩).binChild = some s2 ∧
      s2.pages = twoUnnamedStack.pages ++ [("submenu", ⟨3, none⟩)] ∧
      countName "submenu" s2.pages = countName "submenu" twoUnnamedStack.pages + 1 ∧
      ((gtk_stack_get_child_by_name twoUnnamedStack "submenu").isSome →
        2 ≤ countName "submenu" s2.pages) :=
  ⟨by decide, rfl, by decide, by decide,
    unnamed_after_main_collides twoUnnamed twoUnnamedStack ⟨3, none⟩ (by decide) rfl
      (by decide)⟩

/-- C3: when a page named n exists, opening the submenu n and reading the
visible-page property yields n, and likewise writing the visible-page
property to n and reading it back yields n. -/
theorem visible_submenu_roundtrip (p : PopoverMenu) (s : Stack) (n : String)
    (hp : p.binChild = some s)
    (hex : (gtk_stack_get_child_by_name s n).isSome) :
    gtk_popover_menu_get_visible_submenu (gtk_popover_menu_open_submenu p n) = some n ∧
    gtk_popover_menu_get_visible_submenu (gtk_popover_menu_set_visible_submenu p n) =
      some n := by
  constructor
  · simp [gtk_popover_menu_open_submenu, hp, gtk_popover_menu_get_visible_submenu,
      gtk_stack_get_visible_child_name, stack_set_visible_exists s n hex]
  · simp [gtk_popover_menu_set_visible_submenu, hp, gtk_popover_menu_get_visible_submenu,
      gtk_stack_get_visible_child_name, stack_set_visible_exists s n hex]

/-- A fresh instance holding a single page named "a". -/
def onlyPageA : PopoverMenu :=
  gtk_popover_menu_add_submenu gtk_popover_menu_new ⟨1, none⟩ "a"

/-- The stack held by `onlyPageA`. -/
def onlyPageAStack : Stack :=
  { initStack with pages := [("a", ⟨1, none⟩)] }

/-- Witness for C3 at a concrete input. -/
theorem visible_submenu_roundtrip_witness :
    onlyPageA.binChild = some onlyPageAStack ∧
    (gtk_stack_get_child_by_name onlyPageAStack "a").isSome ∧
    (gtk_popover_menu_get_visible_submenu (gtk_popover_menu_open_submenu onlyPageA "a") =
        some "a" ∧
      gtk_popover_menu_get_visible_submenu
          (gtk_popover_menu_set_visible_submenu onlyPageA "a") = some "a") :=
  ⟨by decide, by decide,
    visible_submenu_roundtrip onlyPageA onlyPageAStack "a" (by decide) (by decide)⟩

/-- The instance `onlyPageA` with its single page "a" made visible. -/
def onlyPageAVisible : PopoverMenu :=
  gtk_popover_menu_open_submenu onlyPageA "a"

/-- Counterexample to C4 as stated: on an instance whose pages are only
{"a"} with "a" visible, openSubmenu("X") leaves the visible-page getter at
"a", not "X". -/
theorem open_submenu_nonexistent_cx :
    gtk_popover_menu_get_visible_submenu
        (gtk_popover_menu_open_submenu onlyPageAVisible "X") = some "a" ∧
    (some "a" : Option String) ≠ some "X" := by
  decide

/-- C4 amended: after openSubmenu(X), the visible-page getter returns X when
a page named X exists; when no such page exists the request is ignored and
the getter returns the previously visible page. -/
theorem open_submenu_visible_cases (p : PopoverMenu) (s : Stack) (n : String)
    (hp : p.binChild = some s) :
    ((gtk_stack_get_child_by_name s n).isSome →
      gtk_popover_menu_get_visible_submenu (gtk_popover_menu_open_submenu p n) =
        some n) ∧
    (gtk_stack_get_child_by_name s n = none →
      gtk_popover_menu_get_visible_submenu (gtk_popover_menu_open_submenu p n) =
        gtk_popover_menu_get_visible_submenu p) := by
  constructor
  · intro hex
    simp [gtk_popover_menu_open_submenu, hp, gtk_popover_menu_get_visible_submenu,
      gtk_stack_get_visible_child_name, stack_set_visible_exists s n hex]
  · intro habs
    simp [gtk_popover_menu_open_submenu, hp, gtk_popover_menu_get_visible_submenu,
      gtk_stack_get_visible_child_name, stack_set_visible_absent s n habs]

/-- Witness for C4 (amended) at a concrete input: both the existing-page and
the absent-page case. -/
theorem open_submenu_visible_cases_witness :
    onlyPageAVisible.binChild = some (gtk_stack_set_visible_child_name onlyPageAStack "a") ∧
    ((gtk_stack_get_child_by_name (gtk_stack_set_visible_child_name onlyPageAStack "a")
        "a").isSome →
      gtk_popover_menu_get_visible_submenu
          (gtk_popover_menu_open_submenu onlyPageAVisible "a") = some "a") ∧
    (gtk_stack_get_child_by_name (gtk_stack_set_visible_child_name onlyPageAStack "a")
        "X" = none →
      gtk_popover_menu_get_visible_submenu
          (gtk_popover_menu_open_submenu onlyPageAVisible "X") =
        gtk_popover_menu_get_visible_submenu onlyPageAVisible) :=
  ⟨by decide,
    (open_submenu_visible_cases onlyPageAVisible
      (gtk_stack_set_visible_child_name onlyPageAStack "a") "a" (by decide)).1,
    (open_submenu_visible_cases onlyPageAVisible
      (gtk_stack_set_visible_child_name onlyPageAStack "a") "X" (by decide)).2⟩

/-- Counterexample to C2 as stated: on an instance with no page named
"main" (pages {"a"}, "a" visible), mapping and unmapping leave the visible
page at "a", not "main". -/
theorem map_unmap_not_always_main_cx :
    gtk_popover_menu_get_visible_submenu (gtk_popover_menu_map onlyPageAVisible) =
        some "a" ∧
    gtk_popover_menu_get_visible_submenu (gtk_popover_menu_unmap onlyPageAVisible) =
        some "a" ∧
    (some "a" : Option String) ≠ some "main" := by
  decide

/-- C2 amended: both the map and the unmap transition request "main" as the
visible page; whenever a page named "main" exists, the visible page after
either transition is "main", regardless of which page was visible before. -/
theorem map_unmap_reset_to_main (p : PopoverMenu) (s : Stack)
    (hp : p.binChild = some s)
    (hmain : (gtk_stack_get_child_by_name s "main").isSome) :
    gtk_popover_menu_get_visible_submenu (gtk_popover_menu_map p) = some "main" ∧
    gtk_popover_menu_get_visible_submenu (gtk_popover_menu_unmap p) = some "main" := by
  constructor
  · simp [gtk_popover_menu_map, gtk_popover_menu_open_submenu, hp,
      gtk_popover_menu_get_visible_submenu, gtk_stack_get_visible_child_name,
      stack_set_visible_exists s "main" hmain]
  · simp [gtk_popover_menu_unmap, gtk_popover_menu_open_submenu, hp,
      gtk_popover_menu_get_visible_submenu, gtk_stack_get_visible_child_name,
      stack_set_visible_exists s "main" hmain]

/-- The state `twoUnnamed` with the page "submenu" made visible. -/
def twoUnnamedOnSubmenu : PopoverMenu :=
  gtk_popover_menu_open_submenu twoUnnamed "submenu"

/-- Witness for C2 (amended) at a concrete input: an instance on page
"submenu" returns to "main" on both transitions. -/
theorem map_unmap_reset_to_main_witness :
    twoUnnamedOnSubmenu.binChild =
      some (gtk_stack_set_visible_child_name twoUnnamedStack "submenu") ∧
    (gtk_stack_get_child_by_name
        (gtk_stack_set_visible_child_name twoUnnamedStack "submenu") "main").isSome ∧
    (gtk_popover_menu_get_visible_submenu (gtk_popover_menu_map twoUnnamedOnSubmenu) =
        some "main" ∧
      gtk_popover_menu_get_visible_submenu (gtk_popover_menu_unmap twoUnnamedOnSubmenu) =
        some "main") :=
  ⟨by decide, by decide,
    map_unmap_reset_to_main twoUnnamedOnSubmenu
      (gtk_stack_set_visible_child_name twoUnnamedStack "submenu") (by decide) (by decide)⟩

/-- C6: on a constructed instance, removing the page container itself
forwards to the base widget and removes all content, while removing an
ordinary widget forwards into the page container: exactly the pages bound to
that widget disappear, the removed widget is no longer addressable, and
every page bound to a different widget remains addressable under its name. -/
theorem remove_child_cases (p : PopoverMenu) (s : Stack) (w : Widget)
    (hp : p.binChild = some s) :
    (gtk_popover_menu_remove p PopChild.theStack).binChild = none ∧
    ∃ s2, (gtk_popover_menu_remove p (PopChild.pageChild w)).binChild = some s2 ∧
      s2.pages = removePages s.pages w ∧
      (∀ n, gtk_stack_get_child_by_name s2 n ≠ some w) ∧
      (∀ n w2, w2 ≠ w → gtk_stack_get_child_by_name s n = some w2 →
        gtk_stack_get_child_by_name s2 n = some w2) := by
  refine ⟨by simp [gtk_popover_menu_remove], gtk_container_remove s w, ?_, ?_, ?_, ?_⟩
  · simp [gtk_popover_menu_remove, hp]
  · simp [gtk_container_remove]
  · intro n
    simpa [gtk_stack_get_child_by_name, gtk_container_remove] using
      lookupPage_removePages_self s.pages w n
  · intro n w2 hne h
    simpa [gtk_stack_get_child_by_name, gtk_container_remove] using
      lookupPage_removePages_ne s.pages w w2 n hne h

/-- Witness for C6 at a concrete input: removing the "main" page of
`twoUnnamed` leaves the "submenu" page addressable. -/
theorem remove_child_cases_witness :
    twoUnnamed.binChild = some twoUnnamedStack ∧
    ((gtk_popover_menu_remove twoUnnamed PopChild.theStack).binChild = none ∧
      ∃ s2,
        (gtk_popover_menu_remove twoUnnamed (PopChild.pageChild ⟨1, none⟩)).binChild =
          some s2 ∧
        s2.pages = removePages twoUnnamedStack.pages ⟨1, none⟩ ∧
        (∀ n, gtk_stack_get_child_by_name s2 n ≠ some ⟨1, none⟩) ∧
        (∀ n w2, w2 ≠ (⟨1, none⟩ : Widget) →
          gtk_stack_get_child_by_name twoUnnamedStack n = some w2 →
          gtk_stack_get_child_by_name s2 n = some w2)) :=
  ⟨by decide, remove_child_cases twoUnnamed twoUnnamedStack ⟨1, none⟩ (by decide)⟩

/-- Counterexample to C8 as stated: immediately after construction the page
container has received no visible-page request at all — in particular
"main" has not been requested — and no page is visible. -/
theorem construct_requests_cx :
    PopoverMenu.stackRequests gtk_popover_menu_new = [] ∧
    ¬ "main" ∈ PopoverMenu.stackRequests gtk_popover_menu_new ∧
    gtk_popover_menu_get_visible_submenu gtk_popover_menu_new = none := by
  decide

/-- C8 amended: immediately after construct() the page container shows no
visible entry (so at most one entry is visible) and no page has been
requested as visible; "main" is first requested when the widget is mapped or
unmapped, not at construction. -/
theorem construct_initial_state :
    gtk_popover_menu_get_visible_submenu gtk_popover_menu_new = none ∧
    PopoverMenu.stackRequests gtk_popover_menu_new = [] ∧
    PopoverMenu.stackRequests (gtk_popover_menu_map gtk_popover_menu_new) = ["main"] ∧
    PopoverMenu.stackRequests (gtk_popover_menu_unmap gtk_popover_menu_new) = ["main"] := by
  decide

/-- One public operation changes the re-emitted notification count by one
exactly when it changes the visible page name, and leaves it unchanged
otherwise. -/
theorem stepOp_notify (p : PopoverMenu) (op : Op) :
    (stepOp p op).notifyCount =
      p.notifyCount +
        (if gtk_popover_menu_get_visible_submenu (stepOp p op) =
            gtk_popover_menu_get_visible_submenu p then 0 else 1) := by
  cases op with
  | addChild w =>
      rcases hp : p.binChild with _ | s
      · simp [stepOp, gtk_popover_menu_add, hp, PopoverMenu.notifyCount,
          gtk_popover_menu_get_visible_submenu]
      · simp [stepOp, gtk_popover_menu_add, hp, gtk_popover_menu_add_submenu,
          PopoverMenu.notifyCount, gtk_popover_menu_get_visible_submenu,
          gtk_stack_add_named, gtk_stack_get_visible_child_name]
  | addSubmenu w n =>
      rcases hp : p.binChild with _ | s
      · simp [stepOp, gtk_popover_menu_add_submenu, hp, PopoverMenu.notifyCount,
          gtk_popover_menu_get_visible_submenu]
      · simp [stepOp, gtk_popover_menu_add_submenu, hp, PopoverMenu.notifyCount,
          gtk_popover_menu_get_visible_submenu, gtk_stack_add_named,
          gtk_stack_get_visible_child_name]
  | removeChild w =>
      rcases hp : p.binChild with _ | s
      · simp [stepOp, gtk_popover_menu_remove, hp, PopoverMenu.notifyCount,
          gtk_popover_menu_get_visible_submenu]
      · simp [stepOp, gtk_popover_menu_remove, hp, gtk_container_remove,
          PopoverMenu.notifyCount, gtk_popover_menu_get_visible_submenu,
          gtk_stack_get_visible_child_name]
  | openSubmenu n =>
      rcases hp : p.binChild with _ | s
      · simp [stepOp, gtk_popover_menu_open_submenu, hp, PopoverMenu.notifyCount,
          gtk_popover_menu_get_visible_submenu]
      · simpa [stepOp, gtk_popover_menu_open_submenu, hp, PopoverMenu.notifyCount,
          gtk_popover_menu_get_visible_submenu, gtk_stack_get_visible_child_name]
          using stack_set_visible_notifications s n
  | setVisibleSubmenu n =>
      rcases hp : p.binChild with _ | s
      · simp [stepOp, gtk_popover_menu_set_visible_submenu, hp, PopoverMenu.notifyCount,
          gtk_popover_menu_get_visible_submenu]
      · simpa [stepOp, gtk_popover_menu_set_visible_submenu, hp, PopoverMenu.notifyCount,
          gtk_popover_menu_get_visible_submenu, gtk_stack_get_visible_child_name]
          using stack_set_visible_notifications s n
  | getVisibleSubmenu => simp [stepOp]
  | mapOp =>
      rcases hp : p.binChild with _ | s
      · simp [stepOp, gtk_popover_menu_map, gtk_popover_menu_open_submenu, hp,
          PopoverMenu.notifyCount, gtk_popover_menu_get_visible_submenu]
      · simpa [stepOp, gtk_popover_menu_map, gtk_popover_menu_open_submenu, hp,
          PopoverMenu.notifyCount, gtk_popover_menu_get_visible_submenu,
          gtk_stack_get_visible_child_name]
          using stack_set_visible_notifications s "main"
  | unmapOp =>
      rcases hp : p.binChild with _ | s
      · simp [stepOp, gtk_popover_menu_unmap, gtk_popover_menu_open_submenu, hp,
          PopoverMenu.notifyCount, gtk_popover_menu_get_visible_submenu]
      · simpa [stepOp, gtk_popover_menu_unmap, gtk_popover_menu_open_submenu, hp,
          PopoverMenu.notifyCount, gtk_popover_menu_get_visible_submenu,
          gtk_stack_get_visible_child_name]
          using stack_set_visible_notifications s "main"

/-- Over a whole operation sequence, the notification count grows by exactly
the number of steps at which the visible page name changes. -/
theorem runOps_notify (ops : List Op) : ∀ p : PopoverMenu,
    PopoverMenu.notifyCount (runOps p ops) =
      PopoverMenu.notifyCount p + changeCount p ops := by
  induction ops with
  | nil => intro p; simp [runOps, changeCount]
  | cons op ops ih =>
      intro p
      have h1 := ih (stepOp p op)
      have h2 := stepOp_notify p op
      simp only [runOps, changeCount]
      rw [h1, h2]
      omega

/-- C5: over every sequence of public operations, each change of the visible
page name is matched by exactly one re-emitted "visible-submenu"
notification, and a single property write emits one notification exactly
when it changes the visible name — in particular, writing the current value
emits none. -/
theorem notify_exactly_per_change (p : PopoverMenu) (ops : List Op) (n : String) :
    PopoverMenu.notifyCount (runOps p ops) =
      PopoverMenu.notifyCount p + changeCount p ops ∧
    PopoverMenu.notifyCount (gtk_popover_menu_set_visible_submenu p n) =
      PopoverMenu.notifyCount p +
        (if gtk_popover_menu_get_visible_submenu
              (gtk_popover_menu_set_visible_submenu p n) =
            gtk_popover_menu_get_visible_submenu p then 0 else 1) :=
  ⟨runOps_notify ops p, stepOp_notify p (Op.setVisibleSubmenu n)⟩

/-- With a stack installed, addChild always reduces to addSubmenu under some
effective name. -/
theorem add_eq_add_submenu (p : PopoverMenu) (s : Stack) (w : Widget)
    (hp : p.binChild = some s) :
    ∃ n, gtk_popover_menu_add p w = gtk_popover_menu_add_submenu p w n := by
  simp only [gtk_popover_menu_add, hp]
  exact ⟨_, rfl⟩

/-- One public operation keeps the page container installed as the single
structural child, with its construction-time identity, and never installs a
fallback child. -/
theorem stepOp_preserves_stack (p : PopoverMenu) (s : Stack) (op : Op)
    (hp : p.binChild = some s) (hf : p.fallbackChild = none) :
    ∃ s2, (stepOp p op).binChild = some s2 ∧ s2.id = s.id ∧
      (stepOp p op).fallbackChild = none := by
  cases op with
  | addChild w =>
      obtain ⟨n, hn⟩ := add_eq_add_submenu p s w hp
      exact ⟨gtk_stack_add_named s w n,
        by simp [stepOp, hn, gtk_popover_menu_add_submenu, hp],
        by simp [gtk_stack_add_named],
        by simp [stepOp, hn, gtk_popover_menu_add_submenu, hp, hf]⟩
  | addSubmenu w n =>
      exact ⟨gtk_stack_add_named s w n,
        by simp [stepOp, gtk_popover_menu_add_submenu, hp],
        by simp [gtk_stack_add_named],
        by simp [stepOp, gtk_popover_menu_add_submenu, hp, hf]⟩
  | removeChild w =>
      exact ⟨gtk_container_remove s w,
        by simp [stepOp, gtk_popover_menu_remove, hp],
        by simp [gtk_container_remove],
        by simp [stepOp, gtk_popover_menu_remove, hp, hf]⟩
  | openSubmenu n =>
      exact ⟨gtk_stack_set_visible_child_name s n,
        by simp [stepOp, gtk_popover_menu_open_submenu, hp],
        stack_set_visible_id s n,
        by simp [stepOp, gtk_popover_menu_open_submenu, hp, hf]⟩
  | setVisibleSubmenu n =>
      exact ⟨gtk_stack_set_visible_child_name s n,
        by simp [stepOp, gtk_popover_menu_set_visible_submenu, hp],
        stack_set_visible_id s n,
        by simp [stepOp, gtk_popover_menu_set_visible_submenu, hp, hf]⟩
  | getVisibleSubmenu => exact ⟨s, by simp [stepOp, hp], rfl, by simp [stepOp, hf]⟩
  | mapOp =>
      exact ⟨gtk_stack_set_visible_child_name s "main",
        by simp [stepOp, gtk_popover_menu_map, gtk_popover_menu_open_submenu, hp],
        stack_set_visible_id s "main",
        by simp [stepOp, gtk_popover_menu_map, gtk_popover_menu_open_submenu, hp, hf]⟩
  | unmapOp =>
      exact ⟨gtk_stack_set_visible_child_name s "main",
        by simp [stepOp, gtk_popover_menu_unmap, gtk_popover_menu_open_submenu, hp],
        stack_set_visible_id s "main",
        by simp [stepOp, gtk_popover_menu_unmap, gtk_popover_menu_open_submenu, hp, hf]⟩

/-- Over a whole operation sequence, the page container stays installed and
keeps its construction-time identity, and no fallback child ever appears. -/
theorem runOps_preserves_stack (ops : List Op) : ∀ (p : PopoverMenu) (s : Stack),
    p.binChild = some s → p.fallbackChild = none →
    ∃ s2, (runOps p ops).binChild = some s2 ∧ s2.id = s.id ∧
      (runOps p ops).fallbackChild = none := by
  induction ops with
  | nil => intro p s hp hf; exact ⟨s, by simpa [runOps] using hp, rfl, by simpa [runOps] using hf⟩
  | cons op ops ih =>
      intro p s hp hf
      obtain ⟨s1, h1, h2, h3⟩ := stepOp_preserves_stack p s op hp hf
      obtain ⟨s2, g1, g2, g3⟩ := ih (stepOp p op) s1 h1 h3
      exact ⟨s2, by simpa [runOps] using g1, by rw [g2, h2], by simpa [runOps] using g3⟩

/-- C10: starting from a constructed instance, every sequence of public
operations leaves the page container created at construction installed as
the single structural child (its identity is preserved), and the
stack-is-absent branch of addChild is never taken: no fallback child is ever
installed. -/
theorem stack_child_invariant (ops : List Op) :
    ∃ s2, (runOps gtk_popover_menu_new ops).binChild = some s2 ∧
      s2.id = initStack.id ∧
      (runOps gtk_popover_menu_new ops).fallbackChild = none :=
  runOps_preserves_stack ops gtk_popover_menu_new initStack rfl rfl
